import Mathlib

/-!
Verification of the SOC-Archive-REST-API record-management service.

The development shallowly embeds the Flask/SQLAlchemy application
(src/app.py, src/models.py) as pure Lean functions over an explicit store
state.  Works rows become a `Work` structure, the works table a `Store`,
uploaded PDF bytes a `FileStore` association list, and each HTTP handler a
function from those states (plus request data) to a result and updated
states.  SQL semantics relevant to the handlers (NULL comparisons, LIKE
containment, SQLite numeric affinity on the untyped year parameter) are
modelled explicitly where noted.
-/

namespace SOCArchive

/-- A JSON value, as far as the payloads of this API need: strings, integers,
booleans and null. -/
inductive JVal where
  | vStr (s : String)
  | vInt (n : Int)
  | vBool (b : Bool)
  | vNull
deriving Repr, DecidableEq

/-- A row of the `works` table (src/models.py, class `Work`).
`created_at` is kept as its serialized ISO string (it is only ever read
back through `isoformat()`).  `updated_at` is ORM-maintained wall-clock
metadata that no endpoint reads or exposes, so it is not modelled. -/
structure Work where
  id : Nat
  title : String
  abstract : String
  author_name : String
  author_email : Option String
  year : Int
  field : String
  school : Option String
  region : Option String
  category : Option String
  pdf_filename : Option String
  approved : Bool
  gdpr_consent : Bool
  created_at : String
deriving Repr, DecidableEq

/-- `JVal` rendering of a nullable string column. -/
def optStr : Option String → JVal
  | some s => JVal.vStr s
  | none => JVal.vNull

/-- The derived `pdf_url` entry of `Work.to_dict` (src/models.py line 34):
`f"/api/works/{self.id}/pdf" if self.pdf_filename else None`.
Python truthiness makes both `None` and the empty string fall to `None`. -/
def pdfUrl (w : Work) : JVal :=
  match w.pdf_filename with
  | some f => if f = "" then JVal.vNull else JVal.vStr ("/api/works/" ++ toString w.id ++ "/pdf")
  | none => JVal.vNull

/-- `Work.to_dict` (src/models.py lines 23-37): the external JSON
representation, as an ordered key/value list. -/
def Work.to_dict (w : Work) : List (String × JVal) :=
  [("id", JVal.vInt w.id),
   ("title", JVal.vStr w.title),
   ("abstract", JVal.vStr w.abstract),
   ("author_name", JVal.vStr w.author_name),
   ("year", JVal.vInt w.year),
   ("field", JVal.vStr w.field),
   ("school", optStr w.school),
   ("region", optStr w.region),
   ("category", optStr w.category),
   ("pdf_url", pdfUrl w),
   ("approved", JVal.vBool w.approved),
   ("created_at", JVal.vStr w.created_at)]

/-- The works table plus the autoincrement counter for the next primary key. -/
structure Store where
  works : List Work
  nextId : Nat
deriving Repr, DecidableEq

/-- `Work.query.get(work_id)`: primary-key lookup. -/
def findWork (s : Store) (i : Nat) : Option Work :=
  s.works.find? (fun w => w.id == i)

/-- A sample work used for concrete instances of the theorems. -/
def sampleWork (i : Nat) (yr : Int) (fld : String) (appr : Bool) (pdf : Option String) : Work :=
  { id := i, title := "Title", abstract := "Abstract", author_name := "Author",
    author_email := some "author@example.com", year := yr, field := fld,
    school := some "School", region := some "Region", category := some "Cat",
    pdf_filename := pdf, approved := appr, gdpr_consent := false,
    created_at := "2023-01-01T00:00:00" }

/-! ## The public listing operation (GET /works, src/app.py WorkList.get) -/

/-- Substring containment: does `hay` contain `pat` as a contiguous
substring?  This models the SQLAlchemy `column.contains(x)` construct
(SQL LIKE with percent wildcards around the term).  Backend collation
details of the external database engine (the ASCII case folding of SQLite
LIKE, and wildcard characters inside the term, which `contains` does not
escape by default) are outside the model;
the contract reading is plain substring match. -/
def strContains (hay pat : String) : Bool :=
  hay.toList.tails.any (fun t => pat.toList.isPrefixOf t)

/-- The search disjunction (src/app.py lines 74-81): `db.or_` over
`contains` on title, abstract, author_name and field. -/
def searchClause (t : String) (w : Work) : Bool :=
  strContains w.title t || strContains w.abstract t ||
    strContains w.author_name t || strContains w.field t

/-- Accumulate a decimal digit list into a natural number. -/
def digitsToNat (cs : List Char) : Nat :=
  cs.foldl (fun n c => n * 10 + (c.toNat - '0'.toNat)) 0

/-- The whitespace characters SQLite skips around a numeric literal. -/
def isSqlSpace (c : Char) : Bool :=
  c == ' ' || c == '\t' || c == '\n' || c == '\r' || c == '\x0b' || c == '\x0c'

/-- Parse a string against the SQLite numeric-literal grammar used when
NUMERIC affinity is applied to a TEXT comparison operand: optional
surrounding whitespace, an optional sign, decimal digits with an optional
fractional part (at least one digit overall), and an optional signed
decimal exponent.  The result is (sign, mantissa digits, decimal
exponent): the denoted value is sign * mantissa * 10 ^ exponent.  A
string that is not entirely such a literal is not converted. -/
def sqliteNumLit (s : String) : Option (Int × Nat × Int) :=
  let cs0 := s.toList.dropWhile isSqlSpace
  let sgn : Int := match cs0 with | '-' :: _ => -1 | _ => 1
  let cs1 := match cs0 with | '+' :: r => r | '-' :: r => r | r => r
  let ip := cs1.takeWhile Char.isDigit
  let cs2 := cs1.dropWhile Char.isDigit
  let fp := match cs2 with | '.' :: r => r.takeWhile Char.isDigit | _ => []
  let cs3 := match cs2 with | '.' :: r => r.dropWhile Char.isDigit | r => r
  if ip.isEmpty && fp.isEmpty then none
  else
    match cs3 with
    | 'e' :: r1 | 'E' :: r1 =>
      let esgn : Int := match r1 with | '-' :: _ => -1 | _ => 1
      let r2 := match r1 with | '+' :: r => r | '-' :: r => r | r => r
      let ed := r2.takeWhile Char.isDigit
      let r3 := r2.dropWhile Char.isDigit
      if ed.isEmpty || !(r3.all isSqlSpace) then none
      else some (sgn, digitsToNat (ip ++ fp), esgn * (digitsToNat ed : Int) - (fp.length : Int))
    | r =>
      if r.all isSqlSpace then some (sgn, digitsToNat (ip ++ fp), -(fp.length : Int))
      else none

/-- Exact equality of the denoted value sign * m * 10 ^ e with the
integer y, carried out in integer arithmetic (multiply both sides by the
positive power of ten when the exponent is negative). -/
def decimalMatchesInt (sg : Int) (m : Nat) (e : Int) (y : Int) : Bool :=
  if 0 ≤ e then sg * (m : Int) * (10 : Int) ^ e.toNat == y
  else sg * (m : Int) == y * (10 : Int) ^ (-e).toNat

/-- The year filter (src/app.py line 90): `Work.year == year` compares the
INTEGER column with the RAW request string (no `type=int` coercion in the
handler).  SQLite applies NUMERIC affinity to the TEXT operand: a string
that is entirely a well-formed numeric literal (per `sqliteNumLit`,
including signed, fractional and exponent forms such as +2023, 2023.0 or
2.023e3) is converted and compared numerically against the integer year;
any other string stays TEXT and never equals an integer, so it matches no
row.  The conversion and comparison are modelled exactly over the
rationals; the IEEE-double rounding SQLite applies to real literals and
to integer literals beyond 64 bits, observable only past 15 significant
digits, is outside the model. -/
def yearParamMatches (p : String) (y : Int) : Bool :=
  match sqliteNumLit p with
  | some (sg, m, e) => decimalMatchesInt sg m e y
  | none => false

/-- `contains` on a nullable column: a NULL value yields SQL NULL, so the
row is filtered out. -/
def optContains (col : Option String) (pat : String) : Bool :=
  match col with
  | some v => strContains v pat
  | none => false

/-- Equality on a nullable column: NULL = x is SQL NULL, row filtered out. -/
def optEq (col : Option String) (v : String) : Bool :=
  match col with
  | some c => c == v
  | none => false

/-- The six optional query parameters of GET /works, exactly as
`request.args.get` yields them: `none` when the key is absent from the
query string, `some s` (possibly `some ""`) when present. -/
structure ListParams where
  search : Option String
  field : Option String
  year : Option String
  school : Option String
  region : Option String
  category : Option String
deriving Repr, DecidableEq

/-- Python truthiness of `x = request.args.get(k); if x: ...` applied to a
per-value check: an absent or empty parameter leaves the query alone
(vacuously true for a single row). -/
def truthy (p : Option String) (f : String → Bool) : Bool :=
  match p with
  | some v => if v = "" then true else f v
  | none => true

/-- One `if param: query = query.filter(...)` step of WorkList.get. -/
def applyFilter (p : Option String) (f : String → Work → Bool) (q : List Work) : List Work :=
  match p with
  | some v => if v = "" then q else q.filter (f v)
  | none => q

/-- WorkList.get (src/app.py lines 67-105): base `approved=True` filter,
then the search/field/year/school/region/category steps in source order. -/
def listWorksFiltered (s : Store) (p : ListParams) : List Work :=
  let q := s.works.filter (fun w => w.approved)
  let q := applyFilter p.search searchClause q
  let q := applyFilter p.field (fun v w => w.field == v) q
  let q := applyFilter p.year (fun v w => yearParamMatches v w.year) q
  let q := applyFilter p.school (fun v w => optContains w.school v) q
  let q := applyFilter p.region (fun v w => optEq w.region v) q
  let q := applyFilter p.category (fun v w => optEq w.category v) q
  q

/-- The fused row predicate the pipeline computes (for the refinement
proofs): approved, conjoined with each truthiness-guarded filter. -/
def pipelinePred (p : ListParams) (w : Work) : Bool :=
  w.approved
    && truthy p.search (fun t => searchClause t w)
    && truthy p.field (fun v => w.field == v)
    && truthy p.year (fun v => yearParamMatches v w.year)
    && truthy p.school (fun v => optContains w.school v)
    && truthy p.region (fun v => optEq w.region v)
    && truthy p.category (fun v => optEq w.category v)

/-- Modelled from the spec (§4.1 Query Builder), for comparison with the
code: a work is in the listing iff it is approved and satisfies every
SUPPLIED criterion — search as the substring disjunction over
title/abstract/author_name/field, field exact, year exact on the
(affinity-coerced) integer, school substring, region and category exact. -/
def specMatches (p : ListParams) (w : Work) : Bool :=
  w.approved
    && (match p.search with | some t => searchClause t w | none => true)
    && (match p.field with | some v => w.field == v | none => true)
    && (match p.year with | some v => yearParamMatches v w.year | none => true)
    && (match p.school with | some v => optContains w.school v | none => true)
    && (match p.region with | some v => optEq w.region v | none => true)
    && (match p.category with | some v => optEq w.category v | none => true)

/-- No parameter was supplied as the empty string (the case where the
truthiness test of the handler and the "supplied" of the spec diverge). -/
def noEmptyParams (p : ListParams) : Prop :=
  p.search ≠ some "" ∧ p.field ≠ some "" ∧ p.year ≠ some "" ∧
    p.school ≠ some "" ∧ p.region ≠ some "" ∧ p.category ≠ some ""

instance (p : ListParams) : Decidable (noEmptyParams p) := by
  unfold noEmptyParams
  infer_instance

/-- Error taxonomy of the handlers as the code actually surfaces them. -/
inductive ApiErr where
  | keyError (k : String)
  | notFound
deriving Repr, DecidableEq

/-- HTTP status of each error: an uncaught Python `KeyError` is turned
into a generic 500 Internal Server Error by flask-restx (the app installs
no error handler and enables no request validation); `get_or_404` and the
explicit `404` returns give 404. -/
def ApiErr.status : ApiErr → Nat
  | keyError _ => 500
  | notFound => 404

/-- The full GET /works handler: it builds the filtered list and returns
it serialized; no code path in the source raises, so the result is always
`Except.ok`. -/
def workListGet (s : Store) (p : ListParams) : Except ApiErr (List (List (String × JVal))) :=
  Except.ok ((listWorksFiltered s p).map Work.to_dict)

/-- C2 counterexample input: a row whose `pdf_filename` is the empty string,
which the works column type (`db.String(300)`, nullable) admits. -/
def emptyPdfWork : Work := sampleWork 1 2023 "Physics" true (some "")

/-- A one-work store with an approved Physics work, used for concrete
instances of the listing theorems. -/
def cexListStore : Store := { works := [sampleWork 1 2023 "Physics" true none], nextId := 2 }

/-- Listing parameters where `field` is supplied as the empty string
(`GET /works?field=`). -/
def cexListParams : ListParams :=
  { search := none, field := some "", year := none, school := none,
    region := none, category := none }

/-- Ordinary non-empty listing parameters. -/
def okListParams : ListParams :=
  { search := some "Title", field := some "Physics", year := some "2023",
    school := none, region := some "Region", category := none }

/-- Listing parameters whose `year` is not an integer literal. -/
def badYearParams : ListParams :=
  { search := none, field := none, year := some "banana", school := none,
    region := none, category := none }

/-! ## The create operation (POST /works, src/app.py WorkList.post) -/

/-- The JSON body of a create request, modelled at the granularity the
handler reads it: each key the handler looks up is `none` when absent from
the body (or JSON null, for the `.get` keys) and `some v` when present;
`extra` lists any further keys present in the body (e.g. "approved",
"pdf_filename"), which the handler never reads.  Bodies whose values have
the wrong JSON type are outside the model (the handler performs no
validation; `@works_ns.expect` without `validate=True` enforces
nothing). -/
structure CreateBody where
  title : Option String
  abstract : Option String
  author_name : Option String
  author_email : Option String
  year : Option Int
  field : Option String
  school : Option String
  region : Option String
  category : Option String
  gdpr_consent : Option Bool
  extra : List String
deriving Repr, DecidableEq

/-- `data[k]`: a missing key raises `KeyError(k)`. -/
def reqField (o : Option α) (k : String) : Except ApiErr α :=
  match o with
  | some v => Except.ok v
  | none => Except.error (ApiErr.keyError k)

/-- WorkList.post (src/app.py lines 109-129): build the Work from the body
(required keys via `data[...]` in the evaluation order of the source, optional
keys via `data.get`), with `approved` and `pdf_filename` left at their
column defaults (False / NULL), append it, and return it with 201. -/
def worksPost (s : Store) (now : String) (d : CreateBody) :
    Except ApiErr (Store × Work) := do
  let t ← reqField d.title "title"
  let ab ← reqField d.abstract "abstract"
  let an ← reqField d.author_name "author_name"
  let ae := d.author_email
  let y ← reqField d.year "year"
  let fl ← reqField d.field "field"
  let w : Work :=
    { id := s.nextId, title := t, abstract := ab, author_name := an,
      author_email := ae, year := y, field := fl, school := d.school,
      region := d.region, category := d.category, pdf_filename := none,
      approved := false, gdpr_consent := d.gdpr_consent.getD false,
      created_at := now }
  Except.ok ({ works := s.works ++ [w], nextId := s.nextId + 1 }, w)

/-- The store after a create request: unchanged when the handler raised. -/
def worksPostStore (s : Store) (now : String) (d : CreateBody) : Store :=
  match worksPost s now d with
  | Except.ok (s', _) => s'
  | Except.error _ => s

/-- Some required field of the create body is missing. -/
def missingRequired (d : CreateBody) : Prop :=
  d.title = none ∨ d.abstract = none ∨ d.author_name = none ∨
    d.year = none ∨ d.field = none

/-- An otherwise complete create body that is missing `title`. -/
def bodyNoTitle : CreateBody :=
  { title := none, abstract := some "Abstract", author_name := some "Author",
    author_email := none, year := some 2023, field := some "Physics",
    school := none, region := none, category := none, gdpr_consent := none,
    extra := [] }

/-- A complete create body with no extra keys. -/
def fullBody : CreateBody :=
  { title := some "Title", abstract := some "Abstract", author_name := some "Author",
    author_email := some "author@example.com", year := some 2023,
    field := some "Physics", school := some "School", region := some "Region",
    category := some "Cat", gdpr_consent := some true, extra := [] }

/-- The same body with the extra keys "approved" and "pdf_filename". -/
def fullBodyExtras : CreateBody :=
  { fullBody with extra := ["approved", "pdf_filename"] }

/-- The empty store. -/
def emptyStore : Store := { works := [], nextId := 1 }

/-! ## GDPR anonymization (DELETE /works/{id}/gdpr, src/app.py WorkGDPR.delete) -/

/-- The fixed anonymization marker written over author_name. -/
def anonMarker : String := "Anonymizováno"

/-- The field updates WorkGDPR.delete performs on the addressed work:
`work.author_name = "Anonymizováno"; work.author_email = None`. -/
def anonymizeWork (w : Work) : Work :=
  { w with author_name := anonMarker, author_email := none }

/-- The effect of the committed UPDATE on one row of the table: only the
row with the addressed primary key is touched. -/
def gdprRow (workId : Nat) (w : Work) : Work :=
  if w.id == workId then anonymizeWork w else w

/-- WorkGDPR.delete (src/app.py lines 155-165): 404 when the id is
absent; otherwise overwrite author_name with the marker, clear
author_email, and commit. -/
def gdprDelete (s : Store) (workId : Nat) : Except ApiErr Store :=
  match findWork s workId with
  | none => Except.error ApiErr.notFound
  | some _ => Except.ok { s with works := s.works.map (gdprRow workId) }

/-- The store after the GDPR request (unchanged on a 404). -/
def gdprDeleteStore (s : Store) (workId : Nat) : Store :=
  match gdprDelete s workId with
  | Except.ok s' => s'
  | Except.error _ => s

/-! ## PDF upload and retrieval (src/app.py WorkPDFUpload.post, WorkPDF.get) -/

/-- An uploaded multipart file: its client-supplied filename and bytes. -/
structure FileUpload where
  filename : String
  content : List Nat
deriving Repr, DecidableEq

/-- The upload folder: stored filename to stored bytes, most recent write
first (a rewrite of the same name shadows the old entry, as on disk). -/
abbrev FileStore := List (String × List Nat)

/-- Filename lookup in the upload folder. -/
def fsLookup (fs : FileStore) (name : String) : Option (List Nat) :=
  (fs.find? (fun e => e.1 == name)).map (fun e => e.2)

/-- `allowed_file` (src/app.py lines 54-55):
the filename must contain a dot and the segment after the LAST dot,
lowercased (Python rsplit with maxsplit 1), must be "pdf". -/
def allowed_file (filename : String) : Bool :=
  filename.contains '.' && ((filename.splitOn ".").getLastD "").toLower == "pdf"

/-- The stored filename `secure_filename(f"work_{work_id}_{file.filename}")`
(src/app.py line 213).  The werkzeug `secure_filename` sanitation of the
client basename (an external library, identity on ordinary names) is not
modelled; no claim depends on the exact stored name. -/
def storedPdfName (workId : Nat) (orig : String) : String :=
  "work_" ++ toString workId ++ "_" ++ orig

/-- Outcome of the upload endpoint. -/
inductive UploadResult where
  | notFound
  | badRequest (msg : String)
  | okMsg (msg : String)
deriving Repr, DecidableEq

/-- HTTP status of each upload outcome (get_or_404 gives 404; the three
rejection returns are 400; success is 200). -/
def UploadResult.status : UploadResult → Nat
  | notFound => 404
  | badRequest _ => 400
  | okMsg _ => 200

/-- The row update on a successful upload: record the stored filename on
the addressed work. -/
def pdfRow (workId : Nat) (name : String) (w : Work) : Work :=
  if w.id == workId then { w with pdf_filename := some name } else w

/-- WorkPDFUpload.post (src/app.py lines 201-222): get_or_404; 400 when
the multipart field "pdf" is absent; 400 when the filename is empty; on an
allowed filename save the bytes under the derived name and commit the
name onto the work; otherwise 400 "Invalid file type".  (The `file and`
conjunct of line 212 is always truthy here, since FileStorage truthiness
is emptiness of the filename, already excluded.) -/
def adminPdfPost (s : Store) (fs : FileStore) (workId : Nat)
    (file : Option FileUpload) : UploadResult × Store × FileStore :=
  match findWork s workId with
  | none => (UploadResult.notFound, s, fs)
  | some _ =>
    match file with
    | none => (UploadResult.badRequest "No PDF file provided", s, fs)
    | some f =>
      if f.filename = "" then (UploadResult.badRequest "No file selected", s, fs)
      else if allowed_file f.filename then
        (UploadResult.okMsg "PDF uploaded successfully",
         { s with works := s.works.map (pdfRow workId (storedPdfName workId f.filename)) },
         (storedPdfName workId f.filename, f.content) :: fs)
      else (UploadResult.badRequest "Invalid file type", s, fs)

/-- Outcome of the download endpoint. -/
inductive PdfResult where
  | notFoundPage
  | notAvailable
  | internalError
  | fileDownload (name : String) (content : List Nat)
deriving Repr, DecidableEq

/-- HTTP status of each download outcome: get_or_404 and the explicit
explicit not-available JSON return give 404; `send_file` on a path
that does not exist raises `FileNotFoundError`, which the app (having no
handler for it) surfaces as a 500 Internal Server Error; success is a 200
attachment. -/
def PdfResult.status : PdfResult → Nat
  | notFoundPage => 404
  | notAvailable => 404
  | internalError => 500
  | fileDownload _ _ => 200

/-- WorkPDF.get (src/app.py lines 143-150): get_or_404; 404 when
`work.pdf_filename` is falsy (NULL or empty); then `send_file` on the
stored path — `FileNotFoundError` when the file is gone, else the bytes
as an attachment. -/
def workPdfGet (s : Store) (fs : FileStore) (workId : Nat) : PdfResult :=
  match findWork s workId with
  | none => PdfResult.notFoundPage
  | some w =>
    match w.pdf_filename with
    | none => PdfResult.notAvailable
    | some f =>
      if f = "" then PdfResult.notAvailable
      else
        match fsLookup fs f with
        | some bytes => PdfResult.fileDownload f bytes
        | none => PdfResult.internalError

/-- A store whose single work references a PDF name that is absent from
the file store (dangling reference). -/
def danglingPdfStore : Store :=
  { works := [sampleWork 1 2023 "Physics" true (some "work_1_a.pdf")], nextId := 2 }

/-! ## Get-by-id, export and statistics
(src/app.py WorkDetail.get, ExportData.get, Statistics.get) -/

/-- WorkDetail.get (src/app.py lines 135-138): get_or_404, then the
external representation — with NO approval check. -/
def workDetailGet (s : Store) (workId : Nat) : Except ApiErr (List (String × JVal)) :=
  match findWork s workId with
  | some w => Except.ok w.to_dict
  | none => Except.error ApiErr.notFound

/-- ExportData.get (src/app.py lines 247-250): every work, approved or
not, serialized. -/
def exportGet (s : Store) : List (List (String × JVal)) :=
  s.works.map Work.to_dict

/-- The response of GET /admin/stats. -/
structure StatsResult where
  total_works : Nat
  approved_works : Nat
  works_by_year : List (Int × Nat)
  works_by_field : List (String × Nat)
deriving Repr, DecidableEq

/-- `SELECT key, count(id) ... GROUP BY key` over a column: each distinct
value paired with its number of occurrences. -/
def groupCounts {α : Type} [DecidableEq α] (xs : List α) : List (α × Nat) :=
  xs.dedup.map (fun a => (a, xs.count a))

/-- Statistics.get (src/app.py lines 226-242): total count, approved
count, and the year and field group-bys, all over ALL works.  The handler
only reads; it returns no updated store. -/
def statsGet (s : Store) : StatsResult :=
  { total_works := s.works.length
  , approved_works := (s.works.filter (fun w => w.approved)).length
  , works_by_year := groupCounts (s.works.map (fun w => w.year))
  , works_by_field := groupCounts (s.works.map (fun w => w.field)) }

/-- A store with years {2023, 2023, 2024}, one work unapproved. -/
def statsExampleStore : Store :=
  { works := [sampleWork 1 2023 "Physics" true none,
              sampleWork 2 2023 "Chemistry" false none,
              sampleWork 3 2024 "Physics" true none], nextId := 4 }

/-- C2: the claim as stated is false: for the record `emptyPdfWork`,
`pdf_filename` is non-null (it is the empty string) yet the emitted
`pdf_url` is null, because `to_dict` tests Python truthiness
(`if self.pdf_filename`), not null-ness.  This refutes "pdf_url is a
non-null download path iff pdf_filename is non-null". -/
theorem c2_counterexample :
    emptyPdfWork.pdf_filename ≠ none ∧ pdfUrl emptyPdfWork = JVal.vNull ∧
    ("pdf_url", JVal.vNull) ∈ emptyPdfWork.to_dict := by
  decide

/-- C2 (amended): for every Work record the external JSON representation
has exactly the keys id, title, abstract, author_name, year, field, school,
region, category, pdf_url, approved, created_at; it never contains
author_email, gdpr_consent or pdf_filename; pdf_url is either null or the
download path, and it is non-null iff pdf_filename is non-null AND
non-empty (Python truthiness). -/
theorem c2_to_dict_shape (w : Work) :
    w.to_dict.map Prod.fst =
      ["id", "title", "abstract", "author_name", "year", "field", "school",
       "region", "category", "pdf_url", "approved", "created_at"] ∧
    "author_email" ∉ w.to_dict.map Prod.fst ∧
    "gdpr_consent" ∉ w.to_dict.map Prod.fst ∧
    "pdf_filename" ∉ w.to_dict.map Prod.fst ∧
    (pdfUrl w = JVal.vNull ∨
      pdfUrl w = JVal.vStr ("/api/works/" ++ toString w.id ++ "/pdf")) ∧
    (pdfUrl w ≠ JVal.vNull ↔ ∃ f, w.pdf_filename = some f ∧ f ≠ "") := by
  refine ⟨rfl, by simp [Work.to_dict], by simp [Work.to_dict], by simp [Work.to_dict], ?_, ?_⟩
  · unfold pdfUrl
    match w.pdf_filename with
    | some f =>
      by_cases hf : f = "" <;> simp [hf]
    | none => simp
  · unfold pdfUrl
    match hw : w.pdf_filename with
    | some f =>
      by_cases hf : f = "" <;> simp [hf]
    | none => simp

/-- Each filter step is a `List.filter` under the truthiness guard. -/
theorem applyFilter_eq (p : Option String) (f : String → Work → Bool) (q : List Work) :
    applyFilter p f q = q.filter (fun w => truthy p (fun v => f v w)) := by
  cases p with
  | none => simp [applyFilter, truthy]
  | some v => by_cases hv : v = "" <;> simp [applyFilter, truthy, hv]

/-- The whole WorkList.get pipeline is one filter by `pipelinePred`. -/
theorem listWorksFiltered_eq (s : Store) (p : ListParams) :
    listWorksFiltered s p = s.works.filter (pipelinePred p) := by
  unfold listWorksFiltered
  simp only [applyFilter_eq, List.filter_filter]
  apply List.filter_congr
  intro w _
  simp only [pipelinePred]
  ac_rfl

/-- C1 counterexample: with `field` supplied as the empty string, the code
skips the field filter entirely (Python truthiness), so the approved
Physics work is returned even though its field is not an exact match of
the supplied value "": the listing is NOT the set of approved works
satisfying every supplied filter. -/
theorem c1_counterexample :
    listWorksFiltered cexListStore cexListParams ≠
      cexListStore.works.filter (specMatches cexListParams) := by
  decide

/-- C1 (amended): no unapproved work is ever in the GET /works result, for
every store and every parameter combination; and whenever no parameter is
supplied as the empty string (an empty-string parameter is ignored by the
handler), the listing is exactly the approved works satisfying every
supplied filter conjunctively, with the search term matching iff it is a
substring of title OR abstract OR author_name OR field. -/
theorem c1_listing (s : Store) (p : ListParams) :
    (∀ w ∈ listWorksFiltered s p, w.approved = true) ∧
    (noEmptyParams p → listWorksFiltered s p = s.works.filter (specMatches p)) := by
  constructor
  · intro w hw
    rw [listWorksFiltered_eq] at hw
    have hp := List.of_mem_filter hw
    simp only [pipelinePred, Bool.and_eq_true] at hp
    exact hp.1.1.1.1.1.1
  · intro h
    rw [listWorksFiltered_eq]
    apply List.filter_congr
    intro w _
    obtain ⟨h1, h2, h3, h4, h5, h6⟩ := h
    rcases p with ⟨ps, pf, py, psc, pr, pc⟩
    simp only [pipelinePred, specMatches]
    rcases ps with _ | v1 <;> rcases pf with _ | v2 <;> rcases py with _ | v3 <;>
      rcases psc with _ | v4 <;> rcases pr with _ | v5 <;> rcases pc with _ | v6 <;>
      simp_all [truthy]

/-- C1 witness: the amended equivalence at a concrete store and concrete
non-empty parameters. -/
theorem c1_listing_witness :
    (∀ w ∈ listWorksFiltered cexListStore okListParams, w.approved = true) ∧
    listWorksFiltered cexListStore okListParams =
      cexListStore.works.filter (specMatches okListParams) :=
  ⟨(c1_listing cexListStore okListParams).1,
   (c1_listing cexListStore okListParams).2 (by decide)⟩

/-- C7 counterexample: with `year=banana` the handler does not fail at all
— it returns HTTP 200 with the empty list (the SQL comparison of the
INTEGER column with the non-numeric string matches no row), contradicting
"a year value that is not a valid integer is an error (ValidationError,
HTTP 400)". -/
theorem c7_counterexample :
    workListGet cexListStore badYearParams =
      Except.ok ([] : List (List (String × JVal))) ∧
    (∀ e, workListGet cexListStore badYearParams ≠ Except.error e) := by
  have h0 : listWorksFiltered cexListStore badYearParams = [] := by decide
  exact ⟨by rw [workListGet, h0]; rfl, fun e => by simp [workListGet]⟩

/-- Sanity instances of the affinity model, matching what SQLite does
with the raw parameter: signed, real and exponent literals that coerce to
2023 DO match, while fractional values and junk do not. -/
theorem yearParamMatches_examples :
    yearParamMatches "2023" 2023 = true ∧
    yearParamMatches "+2023" 2023 = true ∧
    yearParamMatches "2023.0" 2023 = true ∧
    yearParamMatches " 2023 " 2023 = true ∧
    yearParamMatches "2.023e3" 2023 = true ∧
    yearParamMatches "-5" (-5) = true ∧
    yearParamMatches "2023.5" 2023 = false ∧
    yearParamMatches "banana" 2023 = false ∧
    sqliteNumLit "banana" = none := by
  decide

/-- A numeric literal equals at most one integer. -/
theorem yearParamMatches_unique {p : String} {a b : Int}
    (h1 : yearParamMatches p a = true) (h2 : yearParamMatches p b = true) : a = b := by
  unfold yearParamMatches at h1 h2
  cases hl : sqliteNumLit p with
  | none =>
    rw [hl] at h1
    exact absurd h1 (by simp)
  | some t =>
    obtain ⟨sg, m, e⟩ := t
    rw [hl] at h1 h2
    simp only [decimalMatchesInt] at h1 h2
    by_cases he : 0 ≤ e
    · rw [if_pos he] at h1 h2
      have e1 : sg * (m : Int) * (10 : Int) ^ e.toNat = a := beq_iff_eq.mp h1
      have e2 : sg * (m : Int) * (10 : Int) ^ e.toNat = b := beq_iff_eq.mp h2
      rw [← e1, ← e2]
    · rw [if_neg he] at h1 h2
      have e1 : sg * (m : Int) = a * (10 : Int) ^ (-e).toNat := beq_iff_eq.mp h1
      have e2 : sg * (m : Int) = b * (10 : Int) ^ (-e).toNat := beq_iff_eq.mp h2
      have h10 : ((10 : Int) ^ (-e).toNat) ≠ 0 := pow_ne_zero _ (by norm_num)
      exact mul_right_cancel₀ h10 (e1 ▸ e2)

/-- C7 (amended): the year parameter is taken from the request as a raw
string and compared by SQL equality under SQLite NUMERIC affinity: the
request never fails; a string the affinity conversion rejects (not a
well-formed numeric literal) silently yields the empty listing; a
well-formed literal confines the listing to works whose integer year it
numerically equals — in particular every listed work satisfies the
comparison, and the listing forces year = n for any integer n the literal
equals. -/
theorem c7_year_filter (s : Store) (p : ListParams) (ys : String)
    (hy : p.year = some ys) (hne : ys ≠ "") :
    (∀ e, workListGet s p ≠ Except.error e) ∧
    (sqliteNumLit ys = none → listWorksFiltered s p = []) ∧
    (∀ w ∈ listWorksFiltered s p, yearParamMatches ys w.year = true) ∧
    (∀ n : Int, yearParamMatches ys n = true →
      ∀ w ∈ listWorksFiltered s p, w.year = n) := by
  have hmem : ∀ w ∈ listWorksFiltered s p, yearParamMatches ys w.year = true := by
    intro w hw
    rw [listWorksFiltered_eq] at hw
    have hp := List.of_mem_filter hw
    simp only [pipelinePred, Bool.and_eq_true] at hp
    have h4 := hp.1.1.1.2
    rw [hy] at h4
    simpa [truthy, hne] using h4
  refine ⟨fun e => by simp [workListGet], ?_, hmem, ?_⟩
  · intro hnone
    rw [listWorksFiltered_eq]
    rw [List.filter_eq_nil_iff]
    intro w _
    simp [pipelinePred, truthy, hy, hne, yearParamMatches, hnone]
  · intro n hn w hw
    exact yearParamMatches_unique (hmem w hw) hn

/-- C7 witness: the amended statement at a concrete store with the
non-numeric year "banana". -/
theorem c7_year_filter_witness :
    (∀ e, workListGet cexListStore badYearParams ≠ Except.error e) ∧
    (sqliteNumLit "banana" = none → listWorksFiltered cexListStore badYearParams = []) ∧
    (∀ w ∈ listWorksFiltered cexListStore badYearParams,
      yearParamMatches "banana" w.year = true) ∧
    (∀ n : Int, yearParamMatches "banana" n = true →
      ∀ w ∈ listWorksFiltered cexListStore badYearParams, w.year = n) :=
  c7_year_filter cexListStore badYearParams "banana" rfl (by decide)

/-- A create with a missing required field raises the `KeyError` of the
first missing key in the evaluation order of the handler. -/
theorem worksPost_missing (s : Store) (now : String) (d : CreateBody)
    (h : missingRequired d) :
    ∃ k, worksPost s now d = Except.error (ApiErr.keyError k) := by
  rcases d with ⟨t, ab, an, ae, y, fl, sc, rg, ct, gd, ex⟩
  simp only [missingRequired] at h
  cases t with
  | none => exact ⟨"title", rfl⟩
  | some tv =>
    cases ab with
    | none => exact ⟨"abstract", rfl⟩
    | some abv =>
      cases an with
      | none => exact ⟨"author_name", rfl⟩
      | some anv =>
        cases y with
        | none => exact ⟨"year", rfl⟩
        | some yv =>
          cases fl with
          | none => exact ⟨"field", rfl⟩
          | some flv => simp_all

/-- C3 counterexample: a create body missing `title` makes the handler
raise `KeyError`, which flask-restx surfaces as HTTP 500 — not the
claimed ValidationError/400.  The store is indeed unchanged. -/
theorem c3_counterexample :
    worksPost emptyStore "2024-01-01T00:00:00" bodyNoTitle =
      Except.error (ApiErr.keyError "title") ∧
    (ApiErr.keyError "title").status = 500 ∧
    (ApiErr.keyError "title").status ≠ 400 ∧
    worksPostStore emptyStore "2024-01-01T00:00:00" bodyNoTitle = emptyStore := by
  refine ⟨rfl, rfl, by decide, rfl⟩

/-- C3 (amended): a create request missing any of the required fields
title, abstract, author_name, year, field fails — with an uncaught
`KeyError` surfaced as HTTP 500, not as a 400 ValidationError — and no
Work record is persisted. -/
theorem c3_create_missing (s : Store) (now : String) (d : CreateBody)
    (h : missingRequired d) :
    (∃ k, worksPost s now d = Except.error (ApiErr.keyError k) ∧
      (ApiErr.keyError k).status = 500) ∧
    worksPostStore s now d = s := by
  obtain ⟨k, hk⟩ := worksPost_missing s now d h
  exact ⟨⟨k, hk, rfl⟩, by simp [worksPostStore, hk]⟩

/-- C3 witness: the amended statement at the concrete body missing
`title` over the empty store. -/
theorem c3_create_missing_witness :
    (∃ k, worksPost emptyStore "2024-01-01T00:00:00" bodyNoTitle =
        Except.error (ApiErr.keyError k) ∧ (ApiErr.keyError k).status = 500) ∧
    worksPostStore emptyStore "2024-01-01T00:00:00" bodyNoTitle = emptyStore :=
  c3_create_missing emptyStore "2024-01-01T00:00:00" bodyNoTitle (Or.inl rfl)

/-- Every successfully created work starts unapproved and without a PDF:
`approved` and `pdf_filename` come from the column defaults, not from the
request body. -/
theorem worksPost_ok_defaults (s : Store) (now : String) (d : CreateBody)
    (s' : Store) (w : Work) (hw : worksPost s now d = Except.ok (s', w)) :
    w.approved = false ∧ w.pdf_filename = none := by
  rcases d with ⟨t, ab, an, ae, y, fl, sc, rg, ct, gd, ex⟩
  cases t with
  | none => exact Except.noConfusion hw
  | some tv =>
    cases ab with
    | none => exact Except.noConfusion hw
    | some abv =>
      cases an with
      | none => exact Except.noConfusion hw
      | some anv =>
        cases y with
        | none => exact Except.noConfusion hw
        | some yv =>
          cases fl with
          | none => exact Except.noConfusion hw
          | some flv =>
            injection hw with h
            injection h with h1 h2
            subst h2
            exact ⟨rfl, rfl⟩

/-- C10: two create bodies that differ only in extra keys (keys the
handler never reads, such as "approved" or "pdf_filename") produce
identical results, and any created record has approved = false and
pdf_filename = null: a client cannot self-approve or pre-attach a PDF
through the create payload. -/
theorem c10_create_ignores_extras (s : Store) (now : String) (d1 d2 : CreateBody)
    (h : d1 = { d2 with extra := d1.extra }) :
    worksPost s now d1 = worksPost s now d2 ∧
    (∀ s' w, worksPost s now d1 = Except.ok (s', w) →
      w.approved = false ∧ w.pdf_filename = none) := by
  refine ⟨?_, fun s' w hw => worksPost_ok_defaults s now d1 s' w hw⟩
  rw [h]
  rcases d2 with ⟨t, ab, an, ae, y, fl, sc, rg, ct, gd, ex⟩
  rfl

/-- C10 witness: concrete bodies differing exactly in the extra keys
"approved" and "pdf_filename". -/
theorem c10_create_ignores_extras_witness :
    worksPost emptyStore "2024-01-01T00:00:00" fullBodyExtras =
      worksPost emptyStore "2024-01-01T00:00:00" fullBody ∧
    (∀ s' w, worksPost emptyStore "2024-01-01T00:00:00" fullBodyExtras =
        Except.ok (s', w) → w.approved = false ∧ w.pdf_filename = none) :=
  c10_create_ignores_extras emptyStore "2024-01-01T00:00:00" fullBodyExtras fullBody rfl

/-- `gdprRow` preserves the primary key. -/
theorem gdprRow_id (workId : Nat) (w : Work) : (gdprRow workId w).id = w.id := by
  unfold gdprRow
  by_cases h : w.id == workId <;> simp [h, anonymizeWork]

/-- `gdprRow` is idempotent on every row. -/
theorem gdprRow_idem (workId : Nat) (w : Work) :
    gdprRow workId (gdprRow workId w) = gdprRow workId w := by
  unfold gdprRow
  by_cases h : w.id == workId
  · simp only [h, if_true]
    have : (anonymizeWork w).id = w.id := rfl
    simp [this, h, anonymizeWork]
  · simp [h]

/-- Primary-key lookup commutes with an id-preserving per-row map. -/
theorem find?_id_map (l : List Work) (i : Nat) (g : Work → Work)
    (hg : ∀ w, (g w).id = w.id) :
    (l.map g).find? (fun w => w.id == i) = (l.find? (fun w => w.id == i)).map g := by
  induction l with
  | nil => rfl
  | cons x xs ih =>
    simp only [List.map_cons, List.find?]
    rw [hg x]
    cases hxi : (x.id == i) with
    | false => simpa [hxi] using ih
    | true => simp [hxi]

/-- C5: on an existing work, the GDPR operation sets author_name to the
fixed marker and author_email to null, leaves every other field of that
work (including approved, gdpr_consent, pdf_filename) unchanged, leaves
every other record in the store unchanged, and is idempotent. -/
theorem c5_gdpr_anonymize (s : Store) (workId : Nat) (w : Work)
    (hw : findWork s workId = some w) :
    findWork (gdprDeleteStore s workId) workId =
      some { w with author_name := anonMarker, author_email := none } ∧
    (∀ w' ∈ s.works, w'.id ≠ workId → w' ∈ (gdprDeleteStore s workId).works) ∧
    (gdprDeleteStore s workId).works.length = s.works.length ∧
    gdprDeleteStore (gdprDeleteStore s workId) workId = gdprDeleteStore s workId := by
  have hs1 : gdprDeleteStore s workId = { s with works := s.works.map (gdprRow workId) } := by
    simp [gdprDeleteStore, gdprDelete, hw]
  have hw' : s.works.find? (fun v => v.id == workId) = some w := hw
  have hwid : w.id = workId := by
    have h2 := List.find?_some hw'
    simpa using h2
  have hfind : findWork (gdprDeleteStore s workId) workId = some (anonymizeWork w) := by
    rw [hs1]
    unfold findWork
    show (s.works.map (gdprRow workId)).find? (fun v => v.id == workId) = _
    rw [find?_id_map _ _ _ (gdprRow_id workId)]
    rw [show s.works.find? (fun v => v.id == workId) = some w from hw]
    simp [gdprRow, hwid]
  refine ⟨hfind, ?_, ?_, ?_⟩
  · intro w' hw' hne
    rw [hs1]
    show w' ∈ s.works.map (gdprRow workId)
    exact List.mem_map.mpr ⟨w', hw', by simp [gdprRow, hne]⟩
  · rw [hs1]
    simp
  · have hfind1 : findWork { s with works := s.works.map (gdprRow workId) } workId =
        some (anonymizeWork w) := by rw [← hs1]; exact hfind
    rw [hs1]
    simp only [gdprDeleteStore, gdprDelete, hfind1]
    rw [List.map_map]
    congr 1
    exact List.map_congr_left (fun a _ => gdprRow_idem workId a)

/-- C5 witness: the statement at a concrete store and existing work. -/
theorem c5_gdpr_anonymize_witness :
    findWork (gdprDeleteStore cexListStore 1) 1 =
      some { sampleWork 1 2023 "Physics" true none with
             author_name := anonMarker, author_email := none } ∧
    (∀ w' ∈ cexListStore.works, w'.id ≠ 1 → w' ∈ (gdprDeleteStore cexListStore 1).works) ∧
    (gdprDeleteStore cexListStore 1).works.length = cexListStore.works.length ∧
    gdprDeleteStore (gdprDeleteStore cexListStore 1) 1 = gdprDeleteStore cexListStore 1 :=
  c5_gdpr_anonymize cexListStore 1 (sampleWork 1 2023 "Physics" true none) (by decide)

/-- `pdfRow` preserves the primary key. -/
theorem pdfRow_id (workId : Nat) (name : String) (w : Work) :
    (pdfRow workId name w).id = w.id := by
  unfold pdfRow
  by_cases h : w.id == workId <;> simp [h]

/-- C4: on an existing work, the upload rejects — with HTTP 400 and both
stores untouched — whenever the file is absent, the filename is empty, or
the extension check fails; and exactly the requests passing all three
checks store the bytes and record the derived filename on the work. -/
theorem c4_pdf_upload (s : Store) (fs : FileStore) (workId : Nat)
    (file : Option FileUpload) (w : Work) (hw : findWork s workId = some w) :
    ((adminPdfPost s fs workId file).1 ≠ UploadResult.notFound) ∧
    ((file = none ∨ ∃ f, file = some f ∧ (f.filename = "" ∨ allowed_file f.filename = false)) →
      (∃ msg, (adminPdfPost s fs workId file).1 = UploadResult.badRequest msg) ∧
      (adminPdfPost s fs workId file).1.status = 400 ∧
      (adminPdfPost s fs workId file).2.1 = s ∧
      (adminPdfPost s fs workId file).2.2 = fs) ∧
    (∀ f, file = some f → f.filename ≠ "" → allowed_file f.filename = true →
      (adminPdfPost s fs workId file).1 = UploadResult.okMsg "PDF uploaded successfully" ∧
      fsLookup (adminPdfPost s fs workId file).2.2 (storedPdfName workId f.filename) =
        some f.content ∧
      findWork (adminPdfPost s fs workId file).2.1 workId =
        some { w with pdf_filename := some (storedPdfName workId f.filename) }) := by
  have hw' : s.works.find? (fun v => v.id == workId) = some w := hw
  have hwid : w.id = workId := by
    have h2 := List.find?_some hw'
    simpa using h2
  refine ⟨?_, ?_, ?_⟩
  · rcases file with _ | f
    · simp [adminPdfPost, hw]
    · by_cases h1 : f.filename = ""
      · simp [adminPdfPost, hw, h1]
      · by_cases h2 : allowed_file f.filename <;> simp [adminPdfPost, hw, h1, h2]
  · intro hbad
    rcases hbad with hnone | ⟨f, hf, hcase⟩
    · subst hnone
      exact ⟨⟨"No PDF file provided", by simp [adminPdfPost, hw]⟩,
        by simp [adminPdfPost, hw, UploadResult.status],
        by simp [adminPdfPost, hw], by simp [adminPdfPost, hw]⟩
    · subst hf
      by_cases hemp : f.filename = ""
      · exact ⟨⟨"No file selected", by simp [adminPdfPost, hw, hemp]⟩,
          by simp [adminPdfPost, hw, hemp, UploadResult.status],
          by simp [adminPdfPost, hw, hemp], by simp [adminPdfPost, hw, hemp]⟩
      · have hnal : allowed_file f.filename = false := by
          rcases hcase with h | h
          · exact absurd h hemp
          · exact h
        exact ⟨⟨"Invalid file type", by simp [adminPdfPost, hw, hemp, hnal]⟩,
          by simp [adminPdfPost, hw, hemp, hnal, UploadResult.status],
          by simp [adminPdfPost, hw, hemp, hnal], by simp [adminPdfPost, hw, hemp, hnal]⟩
  · intro f hf hne hal
    subst hf
    refine ⟨by simp [adminPdfPost, hw, hne, hal], ?_, ?_⟩
    · simp [adminPdfPost, hw, hne, hal, fsLookup]
    · simp only [adminPdfPost, hw, hne, hal, if_neg, if_pos]
      show findWork { s with
          works := s.works.map (pdfRow workId (storedPdfName workId f.filename)) } workId = _
      unfold findWork
      show (s.works.map (pdfRow workId (storedPdfName workId f.filename))).find?
          (fun v => v.id == workId) = _
      rw [find?_id_map _ _ _ (pdfRow_id workId (storedPdfName workId f.filename))]
      rw [hw']
      simp [pdfRow, hwid]

/-- C4 witness: a concrete store, an upload with an allowed ".PDF"
filename succeeding, exercised through the theorem. -/
theorem c4_pdf_upload_witness :
    ((adminPdfPost cexListStore [] 1 (some ⟨"a.PDF", [7, 7]⟩)).1 ≠ UploadResult.notFound) ∧
    ((some (⟨"a.PDF", [7, 7]⟩ : FileUpload) = none ∨
      ∃ f, some (⟨"a.PDF", [7, 7]⟩ : FileUpload) = some f ∧
        (f.filename = "" ∨ allowed_file f.filename = false)) →
      (∃ msg, (adminPdfPost cexListStore [] 1 (some ⟨"a.PDF", [7, 7]⟩)).1 =
        UploadResult.badRequest msg) ∧
      (adminPdfPost cexListStore [] 1 (some ⟨"a.PDF", [7, 7]⟩)).1.status = 400 ∧
      (adminPdfPost cexListStore [] 1 (some ⟨"a.PDF", [7, 7]⟩)).2.1 = cexListStore ∧
      (adminPdfPost cexListStore [] 1 (some ⟨"a.PDF", [7, 7]⟩)).2.2 = []) ∧
    (∀ f, some (⟨"a.PDF", [7, 7]⟩ : FileUpload) = some f → f.filename ≠ "" →
      allowed_file f.filename = true →
      (adminPdfPost cexListStore [] 1 (some ⟨"a.PDF", [7, 7]⟩)).1 =
        UploadResult.okMsg "PDF uploaded successfully" ∧
      fsLookup (adminPdfPost cexListStore [] 1 (some ⟨"a.PDF", [7, 7]⟩)).2.2
        (storedPdfName 1 f.filename) = some f.content ∧
      findWork (adminPdfPost cexListStore [] 1 (some ⟨"a.PDF", [7, 7]⟩)).2.1 1 =
        some { sampleWork 1 2023 "Physics" true none with
               pdf_filename := some (storedPdfName 1 f.filename) }) :=
  c4_pdf_upload cexListStore [] 1 (some ⟨"a.PDF", [7, 7]⟩)
    (sampleWork 1 2023 "Physics" true none) (by decide)

/-- C6 counterexample: a work whose `pdf_filename` names a file missing
from the upload folder makes `send_file` raise `FileNotFoundError`,
surfaced as HTTP 500 — not the claimed NotFound/404. -/
theorem c6_counterexample :
    workPdfGet danglingPdfStore [] 1 = PdfResult.internalError ∧
    (workPdfGet danglingPdfStore [] 1).status = 500 ∧
    (workPdfGet danglingPdfStore [] 1).status ≠ 404 := by
  refine ⟨by decide, by decide, by decide⟩

/-- C6 (amended): retrieval gives 404 when the id is absent or the
pdf_filename of the work is falsy (NULL or empty); when pdf_filename
names a file missing from the File Store the handler raises (HTTP 500),
not 404; and otherwise it returns the stored bytes as a download. -/
theorem c6_pdf_retrieve (s : Store) (fs : FileStore) (workId : Nat) :
    (findWork s workId = none → workPdfGet s fs workId = PdfResult.notFoundPage ∧
      (workPdfGet s fs workId).status = 404) ∧
    (∀ w, findWork s workId = some w → w.pdf_filename = none →
      workPdfGet s fs workId = PdfResult.notAvailable ∧
      (workPdfGet s fs workId).status = 404) ∧
    (∀ w f, findWork s workId = some w → w.pdf_filename = some f → f ≠ "" →
      fsLookup fs f = none →
      workPdfGet s fs workId = PdfResult.internalError ∧
      (workPdfGet s fs workId).status = 500) ∧
    (∀ w f bytes, findWork s workId = some w → w.pdf_filename = some f → f ≠ "" →
      fsLookup fs f = some bytes →
      workPdfGet s fs workId = PdfResult.fileDownload f bytes ∧
      (workPdfGet s fs workId).status = 200) := by
  refine ⟨?_, ?_, ?_, ?_⟩
  · intro h
    simp [workPdfGet, h, PdfResult.status]
  · intro w h hpdf
    simp [workPdfGet, h, hpdf, PdfResult.status]
  · intro w f h hpdf hne hfs
    simp [workPdfGet, h, hpdf, hne, hfs, PdfResult.status]
  · intro w f bytes h hpdf hne hfs
    simp [workPdfGet, h, hpdf, hne, hfs, PdfResult.status]

/-- C6 witness: the amended statement exercised at a concrete store whose
work has an attached file present in the File Store. -/
theorem c6_pdf_retrieve_witness :
    workPdfGet danglingPdfStore [("work_1_a.pdf", [9, 9])] 1 =
      PdfResult.fileDownload "work_1_a.pdf" [9, 9] ∧
    (workPdfGet danglingPdfStore [("work_1_a.pdf", [9, 9])] 1).status = 200 :=
  (c6_pdf_retrieve danglingPdfStore [("work_1_a.pdf", [9, 9])] 1).2.2.2
    (sampleWork 1 2023 "Physics" true (some "work_1_a.pdf")) "work_1_a.pdf" [9, 9]
    (by decide) (by decide) (by decide) (by decide)

/-- Membership in a group-by result characterizes the counts. -/
theorem groupCounts_mem {α : Type} [DecidableEq α] (xs : List α) (a : α) (n : Nat) :
    (a, n) ∈ groupCounts xs ↔ (a ∈ xs ∧ n = xs.count a) := by
  unfold groupCounts
  rw [List.mem_map]
  constructor
  · rintro ⟨b, hb, heq⟩
    have h1 : b = a := congrArg Prod.fst heq
    subst h1
    exact ⟨List.mem_dedup.mp hb, (congrArg Prod.snd heq).symm⟩
  · rintro ⟨ha, hn⟩
    exact ⟨a, List.mem_dedup.mpr ha, by rw [hn]⟩

/-- C8: the statistics are computed over ALL works regardless of approval:
total count, approved count, and for every year (resp. field) present, its
exact multiplicity; pairs occur in works_by_year exactly for present years
with their correct counts; the operation returns only the summary (no
state).  Includes the concrete instance years {2023, 2023, 2024} ↦
{2023: 2, 2024: 1}. -/
theorem c8_stats (s : Store) :
    (statsGet s).total_works = s.works.length ∧
    (statsGet s).approved_works = (s.works.filter (fun w => w.approved)).length ∧
    (∀ y n, (y, n) ∈ (statsGet s).works_by_year ↔
      (y ∈ s.works.map (fun w => w.year) ∧ n = (s.works.map (fun w => w.year)).count y)) ∧
    (∀ f n, (f, n) ∈ (statsGet s).works_by_field ↔
      (f ∈ s.works.map (fun w => w.field) ∧ n = (s.works.map (fun w => w.field)).count f)) ∧
    (statsGet statsExampleStore).works_by_year = [(2023, 2), (2024, 1)] ∧
    (statsGet statsExampleStore).total_works = 3 ∧
    (statsGet statsExampleStore).approved_works = 2 := by
  refine ⟨rfl, rfl, ?_, ?_, by decide, by decide, by decide⟩
  · intro y n
    exact groupCounts_mem _ y n
  · intro f n
    exact groupCounts_mem _ f n

/-- C8 witness: the characterization instantiated at the example store. -/
theorem c8_stats_witness :
    (statsGet statsExampleStore).total_works = statsExampleStore.works.length ∧
    (statsGet statsExampleStore).approved_works =
      (statsExampleStore.works.filter (fun w => w.approved)).length ∧
    (∀ y n, (y, n) ∈ (statsGet statsExampleStore).works_by_year ↔
      (y ∈ statsExampleStore.works.map (fun w => w.year) ∧
        n = (statsExampleStore.works.map (fun w => w.year)).count y)) ∧
    (∀ f n, (f, n) ∈ (statsGet statsExampleStore).works_by_field ↔
      (f ∈ statsExampleStore.works.map (fun w => w.field) ∧
        n = (statsExampleStore.works.map (fun w => w.field)).count f)) ∧
    (statsGet statsExampleStore).works_by_year = [(2023, 2), (2024, 1)] ∧
    (statsGet statsExampleStore).total_works = 3 ∧
    (statsGet statsExampleStore).approved_works = 2 :=
  c8_stats statsExampleStore

/-- C9: the get-by-id operation returns the representation of a work for any
id present in the store, with no approval condition anywhere in the
hypotheses; the same record also appears in the admin export of all
works.  (The witness instantiates it with an unapproved work.) -/
theorem c9_detail_regardless (s : Store) (workId : Nat) (w : Work)
    (hw : findWork s workId = some w) :
    workDetailGet s workId = Except.ok w.to_dict ∧
    w.to_dict ∈ exportGet s := by
  refine ⟨by simp [workDetailGet, hw], ?_⟩
  have hw' : s.works.find? (fun v => v.id == workId) = some w := hw
  exact List.mem_map.mpr ⟨w, List.mem_of_find?_eq_some hw', rfl⟩

/-- C9 witness: the UNapproved work id 2 of the example store is returned
by GET /works/2 and appears in the export. -/
theorem c9_detail_regardless_witness :
    workDetailGet statsExampleStore 2 =
      Except.ok (sampleWork 2 2023 "Chemistry" false none).to_dict ∧
    (sampleWork 2 2023 "Chemistry" false none).to_dict ∈ exportGet statsExampleStore :=
  c9_detail_regardless statsExampleStore 2 (sampleWork 2 2023 "Chemistry" false none)
    (by decide)

/-- C2 witness: the amended representation shape at a work with an
attached PDF. -/
theorem c2_to_dict_shape_witness :
    (sampleWork 1 2023 "Physics" true (some "work_1_a.pdf")).to_dict.map Prod.fst =
      ["id", "title", "abstract", "author_name", "year", "field", "school",
       "region", "category", "pdf_url", "approved", "created_at"] ∧
    "author_email" ∉ (sampleWork 1 2023 "Physics" true (some "work_1_a.pdf")).to_dict.map Prod.fst ∧
    "gdpr_consent" ∉ (sampleWork 1 2023 "Physics" true (some "work_1_a.pdf")).to_dict.map Prod.fst ∧
    "pdf_filename" ∉ (sampleWork 1 2023 "Physics" true (some "work_1_a.pdf")).to_dict.map Prod.fst ∧
    (pdfUrl (sampleWork 1 2023 "Physics" true (some "work_1_a.pdf")) = JVal.vNull ∨
      pdfUrl (sampleWork 1 2023 "Physics" true (some "work_1_a.pdf")) =
        JVal.vStr ("/api/works/" ++ toString (sampleWork 1 2023 "Physics" true (some "work_1_a.pdf")).id ++ "/pdf")) ∧
    (pdfUrl (sampleWork 1 2023 "Physics" true (some "work_1_a.pdf")) ≠ JVal.vNull ↔
      ∃ f, (sampleWork 1 2023 "Physics" true (some "work_1_a.pdf")).pdf_filename = some f ∧ f ≠ "") :=
  c2_to_dict_shape (sampleWork 1 2023 "Physics" true (some "work_1_a.pdf"))

end SOCArchive
